import Mathlib

/-!
Verification development for the degraded-mode availability tracker of the
nodejs-springboot-app repository.

Two service flavors are embedded:

* `NodeApp` — shallow embedding of `nodejsApp/src/app.js` (class `UserApp`).
  The mutable fields of the object that the claims touch
  (`mongoClient` non-nullness, `dbConnected`, the `database_connection_status`
  gauge value, the `user_registrations_total` counter) form `NodeApp.AppState`.
  Each route handler / method becomes a function from its environment outcomes
  (did the mongo call succeed?) and the current state to the next state, the
  list of externally observable effects (`NodeApp.Ev`: datastore calls and log
  emissions, in program order), and the HTTP response.

* `SpringApp` — shallow embedding of the Spring service
  (`DatabaseAvailability.isDatabaseUp`, `UserService`, `UserRestController`,
  `DatabaseUnavailableException`).  The relational datastore environment is a
  `DataSource` with a reachability flag; repository contents are a `Repo`.
  Exceptions become `Except SpringError`; each function also returns the list
  of datastore/repository interactions it performed (`SpringApp.SEv`).
-/

namespace NodeApp

/-- Externally observable effects of the Node service, in program order:
datastore operations performed against MongoDB and log lines emitted. -/
inductive Ev where
  | connectAttempt
  | ping
  | insertOne
  | findUsers
  | deleteOne
  | logConnected
  | logConnectFailed
  | logRestored
  | logLost
  | logRegistered
  | logRegisterFailed
  | logFetchFailed
  | logDeleted
  | logDeleteFailed
deriving DecidableEq, Repr

/-- The mutable fields of the `UserApp` object relevant to availability:
`this.mongoClient` (modelled as its non-nullness), `this.dbConnected`,
the current value of the `database_connection_status` gauge, and the
`user_registrations_total` counter. -/
structure AppState where
  mongoClient : Bool
  dbConnected : Bool
  gauge : Nat
  regCounter : Nat
deriving DecidableEq, Repr

/-- State established by the `UserApp` constructor before the (non-blocking)
initial connection attempt completes: `this.mongoClient = null`,
`this.dbConnected = false`, gauge at its initial value 0 (app.js lines 12-25). -/
def constructorState : AppState :=
  { mongoClient := false, dbConnected := false, gauge := 0, regCounter := 0 }

/-- The availability query of the Node flavor: the guarded handlers read the
cached field `this.dbConnected` (app.js lines 191, 209, 237). -/
def isUp (s : AppState) : Bool := s.dbConnected

/-- `connectToDatabase` (app.js lines 259-273).  `this.mongoClient` is assigned
synchronously; the parameter `ok` is whether `connect()` + `admin().ping()`
succeeded.  On success: `dbConnected = true`, gauge set to 1; on failure:
`dbConnected = false`, gauge set to 0. -/
def connectToDatabase (ok : Bool) (s : AppState) : AppState × List Ev :=
  if ok then
    ({ s with mongoClient := true, dbConnected := true, gauge := 1 },
     [.connectAttempt, .logConnected])
  else
    ({ s with mongoClient := true, dbConnected := false, gauge := 0 },
     [.connectAttempt, .logConnectFailed])

/-- `checkDatabaseConnection` (app.js lines 275-304).  If a client exists, a
ping is attempted (raced against a 2s timeout; `pingOk` is whether the ping
won and succeeded — a timeout is the same failure path).  State changes and
log lines happen only on transitions; the returned Bool is the final
`this.dbConnected`.  With no client, the handler throws internally and the
catch block runs without any ping attempt. -/
def checkDatabaseConnection (pingOk : Bool) (s : AppState) : AppState × List Ev × Bool :=
  if s.mongoClient then
    if pingOk then
      if s.dbConnected then (s, [.ping], true)
      else ({ s with dbConnected := true, gauge := 1 }, [.ping, .logRestored], true)
    else
      if s.dbConnected then ({ s with dbConnected := false, gauge := 0 }, [.ping, .logLost], false)
      else (s, [.ping], false)
  else
    if s.dbConnected then ({ s with dbConnected := false, gauge := 0 }, [.logLost], false)
    else (s, [], false)

/-- Request body of `POST /register`: the two JSON fields, each possibly absent. -/
structure RegisterBody where
  name : Option String
  email : Option String
deriving DecidableEq, Repr

/-- JavaScript falsiness of an optional string field (`!name`): absent or empty. -/
def falsyStr : Option String → Bool
  | none => true
  | some s => s.isEmpty

/-- Environment outcome of `insertOne`. -/
inductive InsertOutcome where
  | ok (id : String)
  | fail
deriving DecidableEq, Repr

/-- Environment outcome of `deleteOne`. -/
inductive DeleteOutcome where
  | deletedOne
  | missing
  | fail
deriving DecidableEq, Repr

/-- HTTP responses of the Node handlers.  `usersHtml connected err` is a
rendered `users` view (status 200) with the given banner state. -/
inductive NodeResp where
  | badRequest
  | unavailable
  | registered (id : String)
  | registerError
  | usersJson
  | usersHtml (connected : Bool) (err : Option String)
  | fetchError
  | deleted
  | userNotFound
  | deleteError
deriving DecidableEq, Repr

/-- HTTP status code of each Node response. -/
def statusOf : NodeResp → Nat
  | .badRequest => 400
  | .unavailable => 503
  | .registered _ => 200
  | .registerError => 500
  | .usersJson => 200
  | .usersHtml _ _ => 200
  | .fetchError => 500
  | .deleted => 200
  | .userNotFound => 404
  | .deleteError => 500

/-- `POST /register` handler (app.js lines 184-205): validate `name`/`email`
(400), then consult `this.dbConnected` (503), then `insertOne`; on insert
success increment `user_registrations_total` and answer 200, on insert
failure log and answer 500 (the catch block does not touch `dbConnected`). -/
def registerHandler (body : RegisterBody) (outcome : InsertOutcome) (s : AppState) :
    AppState × List Ev × NodeResp :=
  if falsyStr body.name || falsyStr body.email then (s, [], .badRequest)
  else if !s.dbConnected then (s, [], .unavailable)
  else
    match outcome with
    | .ok id => ({ s with regCounter := s.regCounter + 1 },
                 [.insertOne, .logRegistered], .registered id)
    | .fail => (s, [.insertOne, .logRegisterFailed], .registerError)

/-- `GET /users` handler (app.js lines 207-233): when `dbConnected` is false,
HTML clients get a rendered degraded page (status 200) and JSON clients get
503; otherwise `find` is attempted, with a 500/error-render on failure. -/
def listUsersHandler (wantsHtml : Bool) (findOk : Bool) (s : AppState) :
    AppState × List Ev × NodeResp :=
  if !s.dbConnected then
    if wantsHtml then (s, [], .usersHtml false (some ("Database unavailable")))
    else (s, [], .unavailable)
  else if findOk then
    if wantsHtml then (s, [.findUsers], .usersHtml true none)
    else (s, [.findUsers], .usersJson)
  else
    if wantsHtml then (s, [.findUsers, .logFetchFailed], .usersHtml false (some ("Failed to fetch users")))
    else (s, [.findUsers, .logFetchFailed], .fetchError)

/-- `DELETE /users/:id` handler (app.js lines 235-256): 503 when
`dbConnected` is false, otherwise `deleteOne` with 200/404/500 outcomes;
the catch block does not touch `dbConnected`. -/
def deleteUserHandler (outcome : DeleteOutcome) (s : AppState) :
    AppState × List Ev × NodeResp :=
  if !s.dbConnected then (s, [], .unavailable)
  else
    match outcome with
    | .deletedOne => (s, [.deleteOne, .logDeleted], .deleted)
    | .missing => (s, [.deleteOne], .userNotFound)
    | .fail => (s, [.deleteOne, .logDeleteFailed], .deleteError)

/-- Health endpoint result. -/
inductive HealthResp where
  | healthy
  | degraded
deriving DecidableEq, Repr

/-- `GET /health` handler (app.js lines 109-117): await
`checkDatabaseConnection`, then report from the updated `dbConnected`. -/
def healthHandler (pingOk : Bool) (s : AppState) : AppState × List Ev × HealthResp :=
  let r := checkDatabaseConnection pingOk s
  (r.1, r.2.1, if r.1.dbConnected then .healthy else .degraded)

/-- Iterate `checkDatabaseConnection` `n` times with a fixed ping outcome,
accumulating the emitted effects. -/
def runChecks : Nat → Bool → AppState → AppState × List Ev
  | 0, _, s => (s, [])
  | Nat.succ k, pingOk, s =>
    let r := checkDatabaseConnection pingOk s
    let rest := runChecks k pingOk r.1
    (rest.1, r.2.1 ++ rest.2)

/-- State after the initial connection attempt succeeded. -/
def connectedState : AppState := (connectToDatabase true constructorState).1

/-- State after one failed check from `connectedState`. -/
def downAfterFail : AppState := (checkDatabaseConnection false connectedState).1

/-- Number of "Database connection lost" log emissions in an effect list. -/
def countLost (evs : List Ev) : Nat := (evs.filter (fun e => e = Ev.logLost)).length

/-- Number of underlying ping attempts in an effect list. -/
def countPings (evs : List Ev) : Nat := (evs.filter (fun e => e = Ev.ping)).length

/-- Is an effect a real datastore data operation (as opposed to a log line or
a connectivity attempt)? -/
def isDataOp : Ev → Bool
  | .insertOne => true
  | .findUsers => true
  | .deleteOne => true
  | _ => false

/-- The state-updating operations of the Node app, with their environment
outcomes, for stating whole-run invariants. -/
inductive NodeOp where
  | connect (ok : Bool)
  | check (pingOk : Bool)
  | register (body : RegisterBody) (outcome : InsertOutcome)
  | list (wantsHtml : Bool) (findOk : Bool)
  | delete (outcome : DeleteOutcome)
  | health (pingOk : Bool)

/-- State effect of one operation. -/
def applyOp : NodeOp → AppState → AppState
  | .connect ok, s => (connectToDatabase ok s).1
  | .check p, s => (checkDatabaseConnection p s).1
  | .register b o, s => (registerHandler b o s).1
  | .list w f, s => (listUsersHandler w f s).1
  | .delete o, s => (deleteUserHandler o s).1
  | .health p, s => (healthHandler p s).1

/-- Run a sequence of operations. -/
def runOps : List NodeOp → AppState → AppState
  | [], s => s
  | op :: rest, s => runOps rest (applyOp op s)

/-- The gauge mirrors the tracker state: 1 when up, 0 when down. -/
def gaugeMatches (s : AppState) : Prop := s.gauge = if s.dbConnected then 1 else 0

end NodeApp

namespace SpringApp

/-- The relational datastore environment as seen by `DataSource.getConnection()`:
whether obtaining a connection currently succeeds. -/
structure DataSource where
  reachable : Bool
deriving DecidableEq, Repr

/-- Datastore / repository interactions of the Spring service, in program order. -/
inductive SEv where
  | getConnection
  | repoExistsByEmail
  | repoSave
  | repoFindAll
  | repoFindById
  | repoExistsById
  | repoDeleteById
  | repoCount
deriving DecidableEq, Repr

/-- `DatabaseAvailability.isDatabaseUp` (config/DatabaseAvailability.java,
lines 84-91): try-with-resources `dataSource.getConnection()`; returns true on
success, false on `SQLException`.  Every call performs one connection attempt. -/
def isDatabaseUp (ds : DataSource) : Bool × List SEv :=
  (ds.reachable, [.getConnection])

/-- The exceptions the embedded Spring code can raise. -/
inductive SpringError where
  | dbUnavailable (msg : String)
  | illegalArgument (msg : String)
  | runtimeError (msg : String)
deriving DecidableEq, Repr

/-- `UserService.ensureDatabaseUp` (UserService.java lines 45-49):
`if (databaseAvailability != null && !databaseAvailability.isDatabaseUp())
throw new DatabaseUnavailableException("Database is currently unreachable")`.
The availability component is optional (`@Autowired(required = false)`),
modelled as `Option DataSource`; with `none` the short-circuit skips the
connection attempt entirely. -/
def ensureDatabaseUp : Option DataSource → Except SpringError Unit × List SEv
  | none => (.ok (), [])
  | some ds =>
    let r := isDatabaseUp ds
    if !r.1 then (.error (.dbUnavailable ("Database is currently unreachable")), r.2)
    else (.ok (), r.2)

/-- A user entity: id assigned by the repository on save, plus name and email. -/
structure SUser where
  id : Option Nat
  name : String
  email : String
deriving DecidableEq, Repr

/-- The JPA repository contents, plus whether `save` currently fails with a
datastore exception (the environment outcome for the `try` block of
`registerUser`). -/
structure Repo where
  users : List SUser
  nextId : Nat
  saveFails : Bool
deriving DecidableEq, Repr

/-- `UserRepository.existsByEmail`. -/
def existsByEmail (r : Repo) (e : String) : Bool := r.users.any (fun u => u.email = e)

/-- `UserService.registerUser` (UserService.java lines 58-80): guard via
`ensureDatabaseUp`; duplicate email raises `IllegalArgumentException`
with the original message; a failing `save` is caught and re-thrown as
`RuntimeException("Failed to register user")`; otherwise the user is saved. -/
def registerUser (avail : Option DataSource) (repo : Repo) (user : SUser) :
    Except SpringError (Repo × SUser) × List SEv :=
  match ensureDatabaseUp avail with
  | (.error e, evs) => (.error e, evs)
  | (.ok _, evs) =>
    if existsByEmail repo user.email then
      (.error (.illegalArgument ("User with email " ++ user.email ++ " already exists")),
       evs ++ [.repoExistsByEmail])
    else if repo.saveFails then
      (.error (.runtimeError ("Failed to register user")), evs ++ [.repoExistsByEmail, .repoSave])
    else
      let saved : SUser := { user with id := some repo.nextId }
      let rep : Repo := { repo with users := repo.users ++ [saved], nextId := repo.nextId + 1 }
      (.ok (rep, saved), evs ++ [.repoExistsByEmail, .repoSave])

/-- `UserService.getAllUsers` (UserService.java lines 87-98): guard, then
`findAll`. -/
def getAllUsers (avail : Option DataSource) (repo : Repo) :
    Except SpringError (List SUser) × List SEv :=
  match ensureDatabaseUp avail with
  | (.error e, evs) => (.error e, evs)
  | (.ok _, evs) => (.ok repo.users, evs ++ [.repoFindAll])

/-- `UserService.deleteUser` (UserService.java lines 157-170): guard, then
`existsById` / `deleteById`, returning whether a user was deleted. -/
def deleteUser (avail : Option DataSource) (repo : Repo) (id : Nat) :
    Except SpringError (Repo × Bool) × List SEv :=
  match ensureDatabaseUp avail with
  | (.error e, evs) => (.error e, evs)
  | (.ok _, evs) =>
    if repo.users.any (fun u => u.id = some id) then
      (.ok ({ repo with users := repo.users.filter (fun u => u.id ≠ some id) }, true),
       evs ++ [.repoExistsById, .repoDeleteById])
    else
      (.ok (repo, false), evs ++ [.repoExistsById])

/-- Responses of `UserRestController`. -/
inductive RestResp where
  | created (u : SUser)
  | conflict (msg : String)
  | unavailable
  | internalError
  | okUsers (us : List SUser)
  | okDeleted
  | notFound
deriving DecidableEq, Repr

/-- HTTP status code of each REST response. -/
def restStatus : RestResp → Nat
  | .created _ => 201
  | .conflict _ => 409
  | .unavailable => 503
  | .internalError => 500
  | .okUsers _ => 200
  | .okDeleted => 200
  | .notFound => 404

/-- `UserRestController.registerUser` (UserRestController.java lines 51-69):
201 on success, `IllegalArgumentException` → 409 CONFLICT with the original
message, `DatabaseUnavailableException` → 503, any other exception → 500. -/
def restRegisterUser (avail : Option DataSource) (repo : Repo) (user : SUser) :
    RestResp × Repo × List SEv :=
  match registerUser avail repo user with
  | (.ok (rep, u), evs) => (.created u, rep, evs)
  | (.error (.illegalArgument m), evs) => (.conflict m, repo, evs)
  | (.error (.dbUnavailable _), evs) => (.unavailable, repo, evs)
  | (.error (.runtimeError _), evs) => (.internalError, repo, evs)

/-- `UserRestController.getAllUsers` (UserRestController.java lines 76-85):
200 with the list, `DatabaseUnavailableException` → 503; other exceptions are
not caught there (framework default 500). -/
def restGetAllUsers (avail : Option DataSource) (repo : Repo) :
    RestResp × List SEv :=
  match getAllUsers avail repo with
  | (.ok us, evs) => (.okUsers us, evs)
  | (.error (.dbUnavailable _), evs) => (.unavailable, evs)
  | (.error _, evs) => (.internalError, evs)

/-- `UserRestController.deleteUser` (UserRestController.java lines 116-131):
200 when deleted, 404 when absent, `DatabaseUnavailableException` → 503. -/
def restDeleteUser (avail : Option DataSource) (repo : Repo) (id : Nat) :
    RestResp × Repo × List SEv :=
  match deleteUser avail repo id with
  | (.ok (rep, true), evs) => (.okDeleted, rep, evs)
  | (.ok (rep, false), evs) => (.notFound, rep, evs)
  | (.error (.dbUnavailable _), evs) => (.unavailable, repo, evs)
  | (.error _, evs) => (.internalError, repo, evs)

/-- Is an effect a repository (data) operation, as opposed to the guard's own
connectivity attempt? -/
def isRepoOp : SEv → Bool
  | .getConnection => false
  | _ => true

end SpringApp

/-! ## Helper lemmas -/

/-- `checkDatabaseConnection` never changes `mongoClient`. -/
theorem checkDatabaseConnection_mongoClient (p : Bool) (s : NodeApp.AppState) :
    (NodeApp.checkDatabaseConnection p s).1.mongoClient = s.mongoClient := by
  unfold NodeApp.checkDatabaseConnection
  by_cases hm : s.mongoClient <;> by_cases hp : p <;> by_cases hd : s.dbConnected <;>
    simp [hm, hp, hd]

/-- Ping counting distributes over concatenation. -/
theorem countPings_append (a b : List NodeApp.Ev) :
    NodeApp.countPings (a ++ b) = NodeApp.countPings a + NodeApp.countPings b := by
  simp [NodeApp.countPings, List.filter_append]

/-- Lost-notification counting distributes over concatenation. -/
theorem countLost_append (a b : List NodeApp.Ev) :
    NodeApp.countLost (a ++ b) = NodeApp.countLost a + NodeApp.countLost b := by
  simp [NodeApp.countLost, List.filter_append]

/-- A run of pings contains no lost notification. -/
theorem countLost_replicate_ping (n : Nat) :
    NodeApp.countLost (List.replicate n NodeApp.Ev.ping) = 0 := by
  induction n with
  | zero => rfl
  | succ m ih =>
    rw [List.replicate_succ]
    have : NodeApp.countLost (NodeApp.Ev.ping :: List.replicate m NodeApp.Ev.ping)
        = NodeApp.countLost (List.replicate m NodeApp.Ev.ping) := by
      simp [NodeApp.countLost]
    rw [this, ih]

/-- Once down (with a client), a failing check is a state no-op emitting one ping. -/
theorem runChecks_fail_from_down (k : Nat) :
    NodeApp.runChecks k false NodeApp.downAfterFail
      = (NodeApp.downAfterFail, List.replicate k NodeApp.Ev.ping) := by
  induction k with
  | zero => rfl
  | succ m ih =>
    have hstep : NodeApp.checkDatabaseConnection false NodeApp.downAfterFail
        = (NodeApp.downAfterFail, [NodeApp.Ev.ping], false) := rfl
    simp [NodeApp.runChecks, hstep, ih, List.replicate_succ]

/-! ## Claim C2 -/

/-- Claim C2 counterexample: the Spring flavor's availability query
`DatabaseAvailability.isDatabaseUp` performs a datastore connection attempt
(`dataSource.getConnection()`) on the call, refuting "never performs I/O or
any datastore call, in both service flavors". -/
theorem c2_counterexample :
    (SpringApp.isDatabaseUp ⟨true⟩).2 = [SpringApp.SEv.getConnection] := rfl

/-- Claim C2 (amended): the Node flavor's availability query is a pure read of
the cached in-memory field `dbConnected` with no effects; the Spring flavor's
`isDatabaseUp` instead performs exactly one live datastore connection attempt
on every call and returns its outcome. -/
theorem c2_amended :
    (∀ s : NodeApp.AppState, NodeApp.isUp s = s.dbConnected) ∧
    (∀ ds : SpringApp.DataSource,
        SpringApp.isDatabaseUp ds = (ds.reachable, [SpringApp.SEv.getConnection])) :=
  ⟨fun _ => rfl, fun _ => rfl⟩

/-- Claim C2 witness: the amended claim evaluated at concrete states. -/
theorem c2_witness :
    NodeApp.isUp NodeApp.connectedState = NodeApp.connectedState.dbConnected ∧
    SpringApp.isDatabaseUp ⟨false⟩ = (false, [SpringApp.SEv.getConnection]) :=
  ⟨c2_amended.1 NodeApp.connectedState, c2_amended.2 ⟨false⟩⟩

/-! ## Claim C4 -/

/-- Claim C4 counterexample: at process start (the `UserApp` constructor sets
`this.dbConnected = false` before the non-blocking connection attempt
completes), `isUp` returns false — the start is pessimistic, not the
optimistic UP the claim states. -/
theorem c4_counterexample : NodeApp.isUp NodeApp.constructorState = false := rfl

/-- Claim C4 (amended): at process start, before any connection attempt or
probe has completed, the availability state is DOWN (`dbConnected = false`);
`isUp` returns false until the first successful check flips it up, and a check
can only flip the state up when its ping succeeded and a client exists. -/
theorem c4_amended :
    NodeApp.isUp NodeApp.constructorState = false ∧
    NodeApp.isUp (NodeApp.connectToDatabase true NodeApp.constructorState).1 = true ∧
    NodeApp.isUp (NodeApp.connectToDatabase false NodeApp.constructorState).1 = false ∧
    (∀ (s : NodeApp.AppState) (pingOk : Bool),
        (NodeApp.checkDatabaseConnection pingOk s).1.dbConnected = true →
        pingOk = true ∧ s.mongoClient = true) := by
  refine ⟨rfl, rfl, rfl, ?_⟩
  intro s pingOk h
  unfold NodeApp.checkDatabaseConnection at h
  by_cases hm : s.mongoClient <;> by_cases hp : pingOk <;> by_cases hd : s.dbConnected <;>
    simp [hm, hp, hd] at h ⊢

/-- Claim C4 witness: the amended claim's implication applied at a concrete
state where the check succeeded. -/
theorem c4_witness :
    true = true ∧ NodeApp.connectedState.mongoClient = true :=
  c4_amended.2.2.2 NodeApp.connectedState true (by decide)

/-! ## Claim C9 -/

/-- Claim C9: a registration request with a missing (or empty, which is the
same JavaScript falsiness) name or email gets a 400 validation error for every
tracker state and every datastore outcome: validation precedes the
availability guard, so a down datastore never masks a validation failure. -/
theorem c9_validation_before_guard (b : NodeApp.RegisterBody)
    (o : NodeApp.InsertOutcome) (s : NodeApp.AppState)
    (h : NodeApp.falsyStr b.name = true ∨ NodeApp.falsyStr b.email = true) :
    NodeApp.registerHandler b o s = (s, [], .badRequest) ∧
    NodeApp.statusOf .badRequest = 400 := by
  refine ⟨?_, rfl⟩
  unfold NodeApp.registerHandler
  rcases h with h | h <;> simp [h]

/-- Claim C9 witness: a missing-name request against the DOWN start state is a
400, not a 503. -/
theorem c9_witness :
    NodeApp.registerHandler ⟨none, some ("a@b.c")⟩ .fail NodeApp.constructorState
      = (NodeApp.constructorState, [], .badRequest) ∧
    NodeApp.statusOf .badRequest = 400 :=
  c9_validation_before_guard ⟨none, some ("a@b.c")⟩ .fail NodeApp.constructorState (Or.inl rfl)

/-! ## Claim C10 -/

/-- Claim C10: the availability guard of the relational-store service is
optional: with no `DatabaseAvailability` component wired in,
`ensureDatabaseUp` never throws (and performs no connectivity check);
`DatabaseUnavailableException` is raised exactly when a component exists and
reports the database down; and with no component every service operation
proceeds directly to the repository. -/
theorem c10_guard_optional :
    SpringApp.ensureDatabaseUp none = (.ok (), []) ∧
    (∀ a : Option SpringApp.DataSource,
        (SpringApp.ensureDatabaseUp a).1
            = .error (.dbUnavailable ("Database is currently unreachable"))
          ↔ a = some ⟨false⟩) ∧
    (∀ (repo : SpringApp.Repo) (u : SpringApp.SUser),
        (SpringApp.registerUser none repo u).2.head? = some .repoExistsByEmail) ∧
    (∀ repo : SpringApp.Repo, SpringApp.getAllUsers none repo = (.ok repo.users, [.repoFindAll])) ∧
    (∀ (repo : SpringApp.Repo) (i : Nat),
        (SpringApp.deleteUser none repo i).2.head? = some .repoExistsById) := by
  refine ⟨rfl, ?_, ?_, ?_, ?_⟩
  · intro a
    rcases a with _ | ⟨⟨r⟩⟩
    · simp [SpringApp.ensureDatabaseUp]
    · cases r <;> simp [SpringApp.ensureDatabaseUp, SpringApp.isDatabaseUp]
  · intro repo u
    unfold SpringApp.registerUser SpringApp.ensureDatabaseUp
    by_cases h : SpringApp.existsByEmail repo u.email <;>
      by_cases hs : repo.saveFails <;> simp [h, hs]
  · intro repo
    rfl
  · intro repo i
    unfold SpringApp.deleteUser SpringApp.ensureDatabaseUp
    by_cases h : repo.users.any (fun u => u.id = some i) <;> simp [h]

/-- Claim C10 witness: with no availability component and an unreachable-irrelevant
environment, registration proceeds straight to the repository. -/
theorem c10_witness :
    SpringApp.ensureDatabaseUp none = (.ok (), []) ∧
    (SpringApp.registerUser none ⟨[], 1, false⟩ ⟨none, ("A"), ("a@b.c")⟩).2.head?
      = some .repoExistsByEmail :=
  ⟨c10_guard_optional.1, c10_guard_optional.2.2.1 ⟨[], 1, false⟩ ⟨none, ("A"), ("a@b.c")⟩⟩

/-! ## Claim C1 -/

/-- Claim C1 counterexample: with the tracker DOWN, a guarded listing request
from an HTML client does not fail with HTTP 503 — it renders the degraded
users page with status 200 (app.js lines 209-213). -/
theorem c1_counterexample :
    NodeApp.statusOf (NodeApp.listUsersHandler true true NodeApp.constructorState).2.2 = 200 ∧
    NodeApp.statusOf (NodeApp.listUsersHandler true true NodeApp.constructorState).2.2 ≠ 503 ∧
    NodeApp.isUp NodeApp.constructorState = false := by
  refine ⟨rfl, by decide, rfl⟩

/-- Claim C1 (amended): when the tracker state is DOWN at the time of a
guarded call, the wrapped real datastore operation is never invoked (the
emitted effect list is empty / carries no repository call), and the operation
fails immediately: registration with validation-passing input, deletion, and
JSON listing answer HTTP 503; an HTML listing instead renders the degraded
users page (HTTP 200) with a "Database unavailable" error.  In the Spring
flavor, registration, listing and deletion all answer 503 after only the
guard's own connectivity check. -/
theorem c1_fail_fast :
    (∀ (s : NodeApp.AppState) (b : NodeApp.RegisterBody) (o : NodeApp.InsertOutcome),
        s.dbConnected = false → NodeApp.falsyStr b.name = false →
        NodeApp.falsyStr b.email = false →
        NodeApp.registerHandler b o s = (s, [], .unavailable)) ∧
    (∀ (s : NodeApp.AppState) (o : NodeApp.DeleteOutcome),
        s.dbConnected = false → NodeApp.deleteUserHandler o s = (s, [], .unavailable)) ∧
    (∀ (s : NodeApp.AppState) (f : Bool),
        s.dbConnected = false → NodeApp.listUsersHandler false f s = (s, [], .unavailable)) ∧
    (∀ (s : NodeApp.AppState) (f : Bool),
        s.dbConnected = false →
        NodeApp.listUsersHandler true f s
          = (s, [], .usersHtml false (some ("Database unavailable")))) ∧
    (∀ (repo : SpringApp.Repo) (u : SpringApp.SUser),
        SpringApp.restRegisterUser (some ⟨false⟩) repo u
          = (.unavailable, repo, [.getConnection])) ∧
    (∀ repo : SpringApp.Repo,
        SpringApp.restGetAllUsers (some ⟨false⟩) repo = (.unavailable, [.getConnection])) ∧
    (∀ (repo : SpringApp.Repo) (i : Nat),
        SpringApp.restDeleteUser (some ⟨false⟩) repo i
          = (.unavailable, repo, [.getConnection])) := by
  refine ⟨?_, ?_, ?_, ?_, fun _ _ => rfl, fun _ => rfl, fun _ _ => rfl⟩
  · intro s b o hdown hn he
    unfold NodeApp.registerHandler
    simp [hdown, hn, he]
  · intro s o hdown
    unfold NodeApp.deleteUserHandler
    simp [hdown]
  · intro s f hdown
    unfold NodeApp.listUsersHandler
    simp [hdown]
  · intro s f hdown
    unfold NodeApp.listUsersHandler
    simp [hdown]

/-- Claim C1 witness: a valid registration against the DOWN start state is
refused with 503 and no insert is attempted. -/
theorem c1_witness :
    NodeApp.registerHandler ⟨some ("John"), some ("j@example.com")⟩ (.ok ("id1"))
        NodeApp.constructorState
      = (NodeApp.constructorState, [], .unavailable) :=
  c1_fail_fast.1 NodeApp.constructorState ⟨some ("John"), some ("j@example.com")⟩
    (.ok ("id1")) rfl (by decide) (by decide)

/-! ## Claim C3 -/

/-- Claim C3 counterexample: with the tracker UP, a guarded registration whose
`insertOne` fails answers HTTP 500 ("Registration failed"), not 503; the
tracker is left UP (the state is returned unchanged), and an immediately
following guarded operation re-attempts the datastore (it emits a `deleteOne`
call) instead of short-circuiting. -/
theorem c3_counterexample :
    NodeApp.registerHandler ⟨some ("Test"), some ("t@example.com")⟩ .fail NodeApp.connectedState
      = (NodeApp.connectedState, [.insertOne, .logRegisterFailed], .registerError) ∧
    NodeApp.statusOf .registerError = 500 ∧
    NodeApp.isUp NodeApp.connectedState = true ∧
    (NodeApp.deleteUserHandler .fail NodeApp.connectedState).2.1
      = [.deleteOne, .logDeleteFailed] := by
  refine ⟨by decide, rfl, rfl, rfl⟩

/-- Claim C3 (amended): when a guarded operation's wrapped datastore call
fails while the tracker is UP, the error is logged and surfaced as a generic
HTTP 500; the tracker is NOT marked down (the state is unchanged), so an
immediately following guarded operation attempts the datastore again.  In the
Spring flavor a failing `save` is re-thrown as `RuntimeException` and surfaced
as 500, with no availability component touched. -/
theorem c3_no_failure_marking :
    (∀ (s : NodeApp.AppState) (b : NodeApp.RegisterBody),
        s.dbConnected = true → NodeApp.falsyStr b.name = false →
        NodeApp.falsyStr b.email = false →
        NodeApp.registerHandler b .fail s = (s, [.insertOne, .logRegisterFailed], .registerError)) ∧
    (∀ s : NodeApp.AppState,
        s.dbConnected = true →
        NodeApp.deleteUserHandler .fail s = (s, [.deleteOne, .logDeleteFailed], .deleteError)) ∧
    (∀ (repo : SpringApp.Repo) (u : SpringApp.SUser),
        repo.saveFails = true → SpringApp.existsByEmail repo u.email = false →
        SpringApp.restRegisterUser (some ⟨true⟩) repo u
          = (.internalError, repo, [.getConnection, .repoExistsByEmail, .repoSave])) := by
  refine ⟨?_, ?_, ?_⟩
  · intro s b hup hn he
    unfold NodeApp.registerHandler
    simp [hup, hn, he]
  · intro s hup
    unfold NodeApp.deleteUserHandler
    simp [hup]
  · intro repo u hsf hdup
    unfold SpringApp.restRegisterUser SpringApp.registerUser SpringApp.ensureDatabaseUp
    simp [SpringApp.isDatabaseUp, hsf, hdup]

/-- Claim C3 witness: the amended claim at a concrete UP state with a failing
insert, and at a concrete repository with a failing save. -/
theorem c3_witness :
    NodeApp.registerHandler ⟨some ("A"), some ("a@b.c")⟩ .fail NodeApp.connectedState
      = (NodeApp.connectedState, [.insertOne, .logRegisterFailed], .registerError) ∧
    SpringApp.restRegisterUser (some ⟨true⟩) ⟨[], 1, true⟩ ⟨none, ("A"), ("a@b.c")⟩
      = (.internalError, ⟨[], 1, true⟩, [.getConnection, .repoExistsByEmail, .repoSave]) :=
  ⟨c3_no_failure_marking.1 NodeApp.connectedState ⟨some ("A"), some ("a@b.c")⟩ rfl
      (by decide) (by decide),
   c3_no_failure_marking.2.2 ⟨[], 1, true⟩ ⟨none, ("A"), ("a@b.c")⟩ rfl (by decide)⟩

/-! ## Claim C5 -/

/-- Claim C5: a guarded registration failing with the duplicate-email domain
error propagates that error unchanged to the caller as HTTP 409 CONFLICT (not
503), performs no save, leaves the repository unchanged, and leaves the
availability answer UP: the guard of a subsequent call still passes. -/
theorem c5_domain_error_passthrough (repo : SpringApp.Repo) (u : SpringApp.SUser)
    (h : SpringApp.existsByEmail repo u.email = true) :
    SpringApp.restRegisterUser (some ⟨true⟩) repo u
      = (.conflict ("User with email " ++ u.email ++ " already exists"), repo,
         [.getConnection, .repoExistsByEmail]) ∧
    SpringApp.restStatus (SpringApp.restRegisterUser (some ⟨true⟩) repo u).1 = 409 ∧
    (SpringApp.ensureDatabaseUp (some ⟨true⟩)).1 = .ok () := by
  have hreg : SpringApp.restRegisterUser (some ⟨true⟩) repo u
      = (.conflict ("User with email " ++ u.email ++ " already exists"), repo,
         [.getConnection, .repoExistsByEmail]) := by
    unfold SpringApp.restRegisterUser SpringApp.registerUser SpringApp.ensureDatabaseUp
    simp [SpringApp.isDatabaseUp, h]
  exact ⟨hreg, by rw [hreg]; rfl, rfl⟩

/-- Claim C5 witness: a duplicate registration against a concrete repository
is a 409 conflict and the tracker still reports UP. -/
theorem c5_witness :
    SpringApp.restRegisterUser (some ⟨true⟩) ⟨[⟨some 1, ("A"), ("a@b.c")⟩], 2, false⟩
        ⟨none, ("B"), ("a@b.c")⟩
      = (.conflict ("User with email " ++ ("a@b.c") ++ " already exists"),
         ⟨[⟨some 1, ("A"), ("a@b.c")⟩], 2, false⟩, [.getConnection, .repoExistsByEmail]) ∧
    (SpringApp.ensureDatabaseUp (some ⟨true⟩)).1 = .ok () :=
  let r := c5_domain_error_passthrough ⟨[⟨some 1, ("A"), ("a@b.c")⟩], 2, false⟩
    ⟨none, ("B"), ("a@b.c")⟩ (by decide)
  ⟨r.1, r.2.2⟩

/-! ## Claim C6 -/

/-- Claim C6 counterexample: the program state after 2 consecutive reported
failures from UP is identical to the state after 3 — the code keeps no
`consecutiveFailures` counter that could have been "updated to k" (no field of
`UserApp` distinguishes the two runs); only the single lost notification of
the first, transitioning call was emitted in both runs. -/
theorem c6_counterexample :
    (NodeApp.runChecks 2 false NodeApp.connectedState).1
      = (NodeApp.runChecks 3 false NodeApp.connectedState).1 ∧
    NodeApp.countLost (NodeApp.runChecks 3 false NodeApp.connectedState).2 = 1 := by
  decide

/-- Claim C6 (amended): for every k ≥ 1, running the failure path of
`checkDatabaseConnection` k times consecutively from the UP state emits
exactly one "lost" notification (on the first, transitioning call) and leaves
the state at the same DOWN state regardless of k: repeated identical failure
reports are idempotent, and no `consecutiveFailures` counter exists in the
code. -/
theorem c6_single_lost_notification (k : Nat) (h : 1 ≤ k) :
    (NodeApp.runChecks k false NodeApp.connectedState).1 = NodeApp.downAfterFail ∧
    NodeApp.countLost (NodeApp.runChecks k false NodeApp.connectedState).2 = 1 := by
  obtain ⟨n, rfl⟩ : ∃ n, k = n + 1 := ⟨k - 1, by omega⟩
  have hstep : NodeApp.checkDatabaseConnection false NodeApp.connectedState
      = (NodeApp.downAfterFail, [NodeApp.Ev.ping, NodeApp.Ev.logLost], false) := rfl
  have hrun : NodeApp.runChecks (n + 1) false NodeApp.connectedState
      = (NodeApp.downAfterFail,
         [NodeApp.Ev.ping, NodeApp.Ev.logLost] ++ List.replicate n NodeApp.Ev.ping) := by
    simp [NodeApp.runChecks, hstep, runChecks_fail_from_down n]
  rw [hrun]
  refine ⟨rfl, ?_⟩
  rw [countLost_append, countLost_replicate_ping]
  rfl

/-- Claim C6 witness: five consecutive failure reports from UP produce one
lost notification and the fixed DOWN state. -/
theorem c6_witness :
    (NodeApp.runChecks 5 false NodeApp.connectedState).1 = NodeApp.downAfterFail ∧
    NodeApp.countLost (NodeApp.runChecks 5 false NodeApp.connectedState).2 = 1 :=
  c6_single_lost_notification 5 (by decide)

/-! ## Claim C7 -/

/-- Claim C7 counterexample: two `/health`-path probes while the tracker is UP
perform two underlying ping attempts, not one — `checkDatabaseConnection`
(app.js lines 275-304) consults no in-flight-probe flag and shares no pending
promise, so each invocation unconditionally races its own
`admin().ping()`; a burst of N callers therefore performs N datastore
attempts under any interleaving. -/
theorem c7_counterexample :
    NodeApp.countPings (NodeApp.runChecks 2 true NodeApp.connectedState).2 = 2 ∧
    NodeApp.countPings (NodeApp.runChecks 2 true NodeApp.connectedState).2 ≠ 1 := by
  decide

/-- Claim C7 (amended): there is no probe coalescing: from any state with a
Mongo client present, n invocations of `checkDatabaseConnection` perform
exactly n underlying ping attempts (each caller pays for, and receives the
result of, its own probe). -/
theorem c7_no_coalescing (n : Nat) (pingOk : Bool) (s : NodeApp.AppState)
    (h : s.mongoClient = true) :
    NodeApp.countPings (NodeApp.runChecks n pingOk s).2 = n := by
  induction n generalizing s with
  | zero => rfl
  | succ m ih =>
    have hping : NodeApp.countPings (NodeApp.checkDatabaseConnection pingOk s).2.1 = 1 := by
      unfold NodeApp.checkDatabaseConnection
      by_cases hp : pingOk <;> by_cases hd : s.dbConnected <;>
        simp [h, hp, hd, NodeApp.countPings]
    have hnext : (NodeApp.checkDatabaseConnection pingOk s).1.mongoClient = true := by
      rw [checkDatabaseConnection_mongoClient]; exact h
    have := ih (NodeApp.checkDatabaseConnection pingOk s).1 hnext
    simp [NodeApp.runChecks, countPings_append, hping, this]
    omega

/-- Claim C7 witness: three probes from the connected state perform three
underlying attempts. -/
theorem c7_witness :
    NodeApp.countPings (NodeApp.runChecks 3 false NodeApp.connectedState).2 = 3 :=
  c7_no_coalescing 3 false NodeApp.connectedState rfl

/-! ## Claim C8 -/

/-- One operation preserves "gauge mirrors tracker state". -/
theorem gauge_step (op : NodeApp.NodeOp) (s : NodeApp.AppState)
    (h : NodeApp.gaugeMatches s) : NodeApp.gaugeMatches (NodeApp.applyOp op s) := by
  unfold NodeApp.gaugeMatches at h ⊢
  cases op with
  | connect ok =>
    cases ok <;> simp [NodeApp.applyOp, NodeApp.connectToDatabase]
  | check p =>
    simp only [NodeApp.applyOp]
    unfold NodeApp.checkDatabaseConnection
    by_cases hm : s.mongoClient <;> by_cases hp : p <;> by_cases hd : s.dbConnected <;>
      simp [hm, hp, hd, h]
  | register b o =>
    simp only [NodeApp.applyOp]
    unfold NodeApp.registerHandler
    by_cases hv : (NodeApp.falsyStr b.name || NodeApp.falsyStr b.email) = true <;>
      by_cases hd : s.dbConnected <;> cases o <;> simp [hv, hd, h]
  | list w f =>
    simp only [NodeApp.applyOp]
    unfold NodeApp.listUsersHandler
    by_cases hd : s.dbConnected <;> cases w <;> cases f <;> simp [hd, h]
  | delete o =>
    simp only [NodeApp.applyOp]
    unfold NodeApp.deleteUserHandler
    by_cases hd : s.dbConnected <;> cases o <;> simp [hd, h]
  | health p =>
    simp only [NodeApp.applyOp, NodeApp.healthHandler]
    unfold NodeApp.checkDatabaseConnection
    by_cases hm : s.mongoClient <;> by_cases hp : p <;> by_cases hd : s.dbConnected <;>
      simp [hm, hp, hd, h]

/-- The invariant holds along every run from a state satisfying it. -/
theorem runOps_gauge (ops : List NodeApp.NodeOp) (s : NodeApp.AppState)
    (h : NodeApp.gaugeMatches s) : NodeApp.gaugeMatches (NodeApp.runOps ops s) := by
  induction ops generalizing s with
  | nil => exact h
  | cons op rest ih => exact ih (NodeApp.applyOp op s) (gauge_step op s h)

/-- Claim C8: after every sequence of state-updating operations (initial
connection attempt, probes, health checks, guarded register/list/delete with
any outcomes) from process start, the `database_connection_status` gauge
equals 1 when the tracker is UP and 0 when it is DOWN — there is no extra
caching between the tracker field and the gauge. -/
theorem c8_gauge_tracks_state :
    ∀ ops : List NodeApp.NodeOp, NodeApp.gaugeMatches (NodeApp.runOps ops NodeApp.constructorState) :=
  fun ops => runOps_gauge ops NodeApp.constructorState rfl

/-- Claim C8 witness: a concrete run — connect successfully, lose the
database on a probe, fail a registration attempt — leaves the gauge at 0 with
the tracker DOWN. -/
theorem c8_witness :
    NodeApp.gaugeMatches
      (NodeApp.runOps
        [.connect true, .check false,
         .register ⟨some ("A"), some ("a@b.c")⟩ .fail]
        NodeApp.constructorState) :=
  c8_gauge_tracks_state
    [.connect true, .check false, .register ⟨some ("A"), some ("a@b.c")⟩ .fail]
